import Mathlib

/-!
Shallow embedding of the KYC document-verification pipeline in
`src/fde_poc.py` (classes `DocumentReader` and `KYCProcessor`).

Modelling conventions:
* The external vision-model capability is opaque: each run is parameterized
  by the responses the capability would return (`CapabilityResponses`), and
  `process_kyc_document` additionally returns the list of capability calls
  it performed, in order, so that "never invokes any capability" is statable.
* The extraction capability's raw text is modelled by the outcome of
  attempting to parse it as a JSON object (`ParsedExtraction`): `none`
  models a `json.JSONDecodeError`, `some kvs` the parsed key/value pairs.
  The pipeline only ever inspects the key set and the `date_of_birth`
  value, so object values are modelled as strings.
* Wall-clock time is abstracted by an `elapsed : Nat` parameter that the
  pipeline copies into the `processing_time_seconds` field of whichever
  result it returns (mirroring `round(time.time() - start_time, 2)`).
* `datetime.now()` is abstracted by a `today : Date` parameter.
-/

namespace FdePoc

/-- A calendar date, as produced by `datetime.strptime(date_str, "%Y-%m-%d")`
(year, month, day; the time-of-day component is always midnight and is
irrelevant to every comparison the source makes on parsed dates). -/
structure Date where
  year : Nat
  month : Nat
  day : Nat
deriving DecidableEq, Repr

/-- Gregorian leap-year rule, as used by Python's `datetime` to validate the
day of the month during date construction. -/
def isLeapYear (y : Nat) : Bool :=
  (y % 4 == 0 && y % 100 != 0) || y % 400 == 0

/-- Number of days in month `m` of year `y`, as enforced by `datetime`. -/
def daysInMonth (y m : Nat) : Nat :=
  if m == 2 then (if isLeapYear y then 29 else 28)
  else if m == 4 || m == 6 || m == 9 || m == 11 then 30
  else 31

/-- Split a character list at every `'-'`, like `str.split("-")` applied to
the characters of the date string (so `""` gives one empty group and a
trailing `'-'` gives a trailing empty group). -/
def splitOnDash : List Char → List (List Char)
  | [] => [[]]
  | c :: rest =>
    if c = '-' then [] :: splitOnDash rest
    else
      match splitOnDash rest with
      | [] => [[c]]
      | g :: gs => (c :: g) :: gs

/-- Decimal digit test on a character. -/
def isDigitChar (c : Char) : Bool :=
  '0' ≤ c && c ≤ '9'

/-- Numeric value of a list of decimal digit characters. -/
def digitsVal (cs : List Char) : Nat :=
  cs.foldl (fun n c => 10 * n + (c.toNat - '0'.toNat)) 0

/-- Models `datetime.strptime(date_str, "%Y-%m-%d")` (src line 313):
`%Y` matches exactly four digits, `%m` one or two digits with value 1..12,
`%d` one or two digits forming a valid day of the parsed month and year; any
other shape (or an out-of-range component such as year 0000 or Feb 30)
raises `ValueError`, modelled by `none`. -/
def parseDate (s : String) : Option Date :=
  match splitOnDash s.data with
  | [ys, ms, ds] =>
    if ys.length = 4 ∧ ys.all isDigitChar
        ∧ (ms.length = 1 ∨ ms.length = 2) ∧ ms.all isDigitChar
        ∧ (ds.length = 1 ∨ ds.length = 2) ∧ ds.all isDigitChar then
      let y := digitsVal ys
      let m := digitsVal ms
      let d := digitsVal ds
      if 1 ≤ y ∧ 1 ≤ m ∧ m ≤ 12 ∧ 1 ≤ d ∧ d ≤ daysInMonth y m then
        some ⟨y, m, d⟩
      else none
    else none
  | _ => none

/-- Python tuple comparison `(m1, d1) < (m2, d2)` on (month, day) pairs,
from src line 316. -/
def mdLt (m1 d1 m2 d2 : Nat) : Bool :=
  m1 < m2 || (m1 == m2 && d1 < d2)

/-- Python `datetime` comparison `a < b` restricted to the calendar-day
component (lexicographic on year, month, day); used for `date > today`
(src line 323), where the parsed date sits at midnight so the comparison
only depends on the calendar day. -/
def Date.ltb (a b : Date) : Bool :=
  a.year < b.year || (a.year == b.year
    && (a.month < b.month || (a.month == b.month && a.day < b.day)))

/-- The age computation of src line 316:
`today.year - date.year - ((today.month, today.day) < (date.month, date.day))`,
carried out in `Int` because the Python subtraction can go negative. -/
def computeAge (today dob : Date) : Int :=
  (today.year : Int) - (dob.year : Int)
    - (if mdLt today.month today.day dob.month dob.day then 1 else 0)

/-- Return value of `_validate_date_reasonability` (src 308-330). The
`issues` list holds `Option String` because the source builds it with
`"..." if cond else None`, so Python `None` entries occur in the list. -/
structure DateCheckResult where
  is_reasonable : Bool
  issues : List (Option String)
deriving DecidableEq, Repr

/-- Models `KYCProcessor._validate_date_reasonability` (src 308-330). -/
def validate_date_reasonability (today : Date) (date_str : String) : DateCheckResult :=
  match parseDate date_str with
  | none =>
    { is_reasonable := false
      issues := [some "Invalid date format"] }
  | some date =>
    let age := computeAge today date
    { is_reasonable := 18 ≤ age && age ≤ 100
      issues :=
        [ if age < 18 then some "Age below 18" else none,
          if age > 100 then some "Age appears unreasonable (over 100 years)" else none,
          if Date.ltb today date then some "Date is in the future" else none ] }

/-- The tri-flag quality assessment (pydantic model `ImageQualityCheck`,
src 25-28); the JSON-mode schema constrains the capability's reply to these
three string fields. -/
structure ImageQualityCheck where
  centered : String
  clear : String
  fully_visible : String
deriving DecidableEq, Repr

/-- Models `KYCProcessor._validate_image_quality` (src 284-306): the
capability either returns a schema-shaped assessment (`some q`) or the call
errors (`none`), in which case the function swallows the exception and
returns the all-"no" default. -/
def validate_image_quality (resp : Option ImageQualityCheck) : ImageQualityCheck :=
  match resp with
  | some q => q
  | none => { centered := "no", clear := "no", fully_visible := "no" }

/-- Models `all(v == "yes" for v in quality_check.values())` (src 156); the
values of the schema-shaped dict are exactly the three flags. -/
def qualityAllYes (q : ImageQualityCheck) : Bool :=
  [q.centered, q.clear, q.fully_visible].all (fun v => v == "yes")

/-- One entry of `DocumentReader._document_configs` (src 39-84). -/
structure DocumentConfig where
  required_fields : List String
  prompt : String
deriving DecidableEq, Repr

/-- The `DocumentReader._document_configs` table (src 39-84), an immutable
association from document-type identifier to its config. Prompt text is kept
with `\n` line breaks in place of the Python triple-quoted indentation. -/
def document_configs : List (String × DocumentConfig) :=
  [ ("passport",
     { required_fields := ["full_name", "date_of_birth", "passport_number", "nationality", "expiry_date"]
       prompt := "Extract in JSON format:\n- full_name\n- date_of_birth\n- passport_number\n- nationality\n- expiry_date" }),
    ("license",
     { required_fields := ["full_name", "date_of_birth", "license_number", "state", "expiry_date"]
       prompt := "Extract in JSON format:\n- full_name\n- date_of_birth\n- license_number\n- state\n- expiry_date" }),
    ("national_id",
     { required_fields := ["full_name", "date_of_birth", "id_number", "nationality"]
       prompt := "Extract in JSON format:\n- full_name\n- date_of_birth\n- id_number\n- nationality" }),
    ("utility_bill",
     { required_fields := ["service_provider", "customer_name", "address", "bill_date", "amount"]
       prompt := "Extract in JSON format:\n- service_provider\n- customer_name\n- address\n- bill_date\n- amount" }),
    ("bank_statement",
     { required_fields := ["bank_name", "account_holder", "account_number", "statement_period", "balance"]
       prompt := "Extract in JSON format:\n- bank_name\n- account_holder\n- account_number\n- statement_period\n- balance" }) ]

/-- The five supported `DocumentType` enumeration values (src 17-23). -/
def supported_document_types : List String :=
  ["passport", "license", "national_id", "utility_bill", "bank_statement"]

/-- Models `DocumentReader.get_document_prompt` (src 86-89):
`config["prompt"] if config else None`. -/
def get_document_prompt (doc_type : String) : Option String :=
  (List.lookup doc_type document_configs).map DocumentConfig.prompt

/-- Models `DocumentReader.get_required_fields` (src 91-94):
`config["required_fields"] if config else []`. -/
def get_required_fields (doc_type : String) : List String :=
  match List.lookup doc_type document_configs with
  | some config => config.required_fields
  | none => []

/-- Outcome of attempting `json.loads` on the extraction capability's raw
text: `none` models a `json.JSONDecodeError`, `some kvs` a parsed JSON
object given as key/value pairs. -/
abbrev ParsedExtraction := Option (List (String × String))

/-- The three distinct dict shapes `DocumentReader.validate_extracted_data`
can return (src 96-126): the unknown-type error dict, the invalid-JSON error
dict, and the computed validation dict (whose `validation_details` carries
`required_fields` and `provided_fields`). -/
inductive ValidationResult where
  | unknown_type (error : String)
  | invalid_json (error : String)
  | checked (is_valid : Bool) (missing_fields : List String)
      (required_fields : List String) (provided_fields : List String)
deriving DecidableEq, Repr

/-- Reading `result["is_valid"]` off any of the three shapes (the two error
dicts carry `"is_valid": False` explicitly in the source). -/
def ValidationResult.is_valid : ValidationResult → Bool
  | .unknown_type _ => false
  | .invalid_json _ => false
  | .checked v _ _ _ => v

/-- Models `DocumentReader.validate_extracted_data` (src 96-126). In the
pipeline the argument is always the model's raw string, so the string branch
(`json.loads`) applies; its outcome is the `ParsedExtraction`. -/
def validate_extracted_data (doc_type : String) (extracted_data : ParsedExtraction) :
    ValidationResult :=
  let required_fields := get_required_fields doc_type
  if required_fields.isEmpty then
    .unknown_type ("Unknown document type: " ++ doc_type)
  else
    match extracted_data with
    | none => .invalid_json "Invalid JSON format in extracted data"
    | some data =>
      let provided_fields := data.map Prod.fst
      let missing_fields := required_fields.filter (fun f => !(provided_fields.contains f))
      .checked (missing_fields.length == 0) missing_fields required_fields provided_fields

/-- The three opaque external capabilities of the pipeline (spec section 6). -/
inductive Capability where
  | assessQuality
  | classify
  | extract
deriving DecidableEq, Repr

/-- Deterministic responses of the external capability for one run: the
quality call's schema-shaped reply (or `none` when the call errors), the
classification call's raw text, and the parse outcome of the extraction
call's raw text. -/
structure CapabilityResponses where
  quality : Option ImageQualityCheck
  classification : String
  extraction : ParsedExtraction
deriving DecidableEq, Repr

/-- Models the normalization `response...content.strip().lower()` of
`_detect_document_type` (src 228), for ASCII capability replies: whitespace
is stripped from both ends and letters are lower-cased. -/
def detect_document_type (raw : String) : String :=
  ⟨(((raw.data.dropWhile Char.isWhitespace).reverse.dropWhile
      Char.isWhitespace).reverse).map Char.toLower⟩

/-- The hardcoded mock confidence score 0.92 of src line 263, modelled in
hundredths (floating-point values are not modelled; the score is a constant
that the pipeline only copies around). -/
def mock_confidence_score : Nat := 92

/-- The dict returned by `_extract_document_info` on success (src 261-265).
`confidence_score` is in hundredths. -/
structure ExtractedInfo where
  extracted_data : ParsedExtraction
  confidence_score : Nat
  validation_result : ValidationResult
deriving DecidableEq, Repr

/-- Models `KYCProcessor._extract_document_info` (src 230-265): it raises
`ValueError("Unsupported document type: ...")` when the prompt lookup fails
Python truthiness (`None` or empty), before calling the capability;
otherwise it packages the extraction text with the hardcoded 0.92 confidence
score and the `validate_extracted_data` outcome. -/
def extract_document_info (doc_type : String) (extraction : ParsedExtraction) :
    Except String ExtractedInfo :=
  match get_document_prompt doc_type with
  | none => .error ("Unsupported document type: " ++ doc_type)
  | some p =>
    if p.data.isEmpty then .error ("Unsupported document type: " ++ doc_type)
    else
      .ok { extracted_data := extraction
            confidence_score := mock_confidence_score
            validation_result := validate_extracted_data doc_type extraction }

/-- The dict returned by `_validate_extracted_info` (src 267-282). -/
structure MockValidation where
  is_valid : Bool
  missing_fields : List String
  compliance_check : String
deriving DecidableEq, Repr

/-- Models `KYCProcessor._validate_extracted_info` (src 267-282): the body
ignores both arguments and its local `required_fields` table and returns the
hardcoded mock dict (the source comments it as "Mock validation for PoC"). -/
def validate_extracted_info (_extracted_info : ExtractedInfo) (_doc_type : String) :
    MockValidation :=
  { is_valid := true, missing_fields := [], compliance_check := "passed" }

/-- The four distinct result dict shapes `process_kyc_document` can return
(src 157-162, 175-180, 189-199, 202-206). Every shape carries the
`processing_time_seconds` field. -/
inductive PipelineResult where
  | success (document_type : String) (extracted_info : ExtractedInfo)
      (validation_result : MockValidation) (quality_check : ImageQualityCheck)
      (confidence_score : Nat) (processing_time_seconds : Nat)
  | quality_failure (error_message : String) (quality_issues : ImageQualityCheck)
      (processing_time_seconds : Nat)
  | date_failure (error_message : String) (date_issues : List (Option String))
      (processing_time_seconds : Nat)
  | failure (error_message : String) (processing_time_seconds : Nat)
deriving DecidableEq, Repr

/-- Models `KYCProcessor.process_kyc_document` (src 136-206).
Inputs: `today` abstracts `datetime.now()`, `image_size` is the byte length
of the loaded image file, `caps` the capability responses, `elapsed` the
abstract wall-clock reading copied into the returned time field. The second
component of the result is the ordered list of capability calls performed. -/
def process_kyc_document (today : Date) (image_size : Nat)
    (caps : CapabilityResponses) (elapsed : Nat) :
    PipelineResult × List Capability :=
  if image_size > 20 * 1024 * 1024 then
    (.failure "Image file is too large. Please use an image smaller than 20MB" elapsed, [])
  else
    let quality_check := validate_image_quality caps.quality
    if !(qualityAllYes quality_check) then
      (.quality_failure "Image quality check failed" quality_check elapsed,
       [.assessQuality])
    else
      let doc_type := detect_document_type caps.classification
      match extract_document_info doc_type caps.extraction with
      | .error msg => (.failure msg elapsed, [.assessQuality, .classify])
      | .ok extracted_info =>
        match caps.extraction with
        | some extracted_data =>
          let dob := (List.lookup "date_of_birth" extracted_data).getD ""
          let date_validation := validate_date_reasonability today dob
          if !date_validation.is_reasonable then
            (.date_failure "Date validation failed" date_validation.issues elapsed,
             [.assessQuality, .classify, .extract])
          else
            (.success doc_type extracted_info
              (validate_extracted_info extracted_info doc_type) quality_check
              extracted_info.confidence_score elapsed,
             [.assessQuality, .classify, .extract])
        | none =>
          (.success doc_type extracted_info
            (validate_extracted_info extracted_info doc_type) quality_check
            extracted_info.confidence_score elapsed,
           [.assessQuality, .classify, .extract])

/-- Replace the `processing_time_seconds` field with 0, leaving all other
content intact; used to compare pipeline results up to timing. -/
def PipelineResult.eraseTime : PipelineResult → PipelineResult
  | .success dt ei vr qc cs _ => .success dt ei vr qc cs 0
  | .quality_failure m q _ => .quality_failure m q 0
  | .date_failure m i _ => .date_failure m i 0
  | .failure m _ => .failure m 0

/-! Helper lemmas about association-list lookup and the registry. -/

/-- Lookup finding an entry means the pair occurs in the list. -/
theorem mem_of_lookup_eq_some {β : Type} {a : String} {b : β} :
    ∀ {l : List (String × β)}, List.lookup a l = some b → (a, b) ∈ l := by
  intro l
  induction l with
  | nil => intro h; simp [List.lookup] at h
  | cons hd tl ih =>
    intro h
    rw [List.lookup] at h
    rcases hbeq : (a == hd.1) with _ | _
    · rw [hbeq] at h
      exact List.mem_cons_of_mem hd (ih h)
    · rw [hbeq] at h
      cases h
      rw [eq_of_beq hbeq]
      exact List.mem_cons_self _ _

/-- A key that occurs among no first components is not found by lookup. -/
theorem lookup_eq_none_of_not_mem_keys {β : Type} {a : String} :
    ∀ {l : List (String × β)}, a ∉ l.map Prod.fst → List.lookup a l = none := by
  intro l
  induction l with
  | nil => intro _; rfl
  | cons hd tl ih =>
    intro h
    simp only [List.map_cons, List.mem_cons, not_or] at h
    rw [List.lookup]
    rcases hbeq : (a == hd.1) with _ | _
    · exact ih h.2
    · exact absurd (eq_of_beq hbeq) h.1

/-- Every config stored in the registry has a non-empty required-field list
and a non-empty prompt. -/
theorem config_of_lookup {dt : String} {cfg : DocumentConfig}
    (h : List.lookup dt document_configs = some cfg) :
    cfg.required_fields ≠ [] ∧ cfg.prompt.data ≠ [] := by
  have hmem := mem_of_lookup_eq_some h
  simp only [document_configs, List.mem_cons, List.not_mem_nil, or_false] at hmem
  rcases hmem with h | h | h | h | h <;>
    · injection h with h1 h2
      rw [h2]
      exact ⟨by decide, by decide⟩

/-- Under a successful registry lookup, `get_required_fields` projects the
config. -/
theorem get_required_fields_of_lookup {dt : String} {cfg : DocumentConfig}
    (h : List.lookup dt document_configs = some cfg) :
    get_required_fields dt = cfg.required_fields := by
  rw [get_required_fields, h]

/-- A date strictly later than today yields an age below 18 (in fact
non-positive): the source's reasonability window can therefore never accept
a future date. -/
theorem computeAge_lt_of_future {today d : Date} (h : Date.ltb today d = true) :
    computeAge today d < 18 := by
  rw [Date.ltb] at h
  rw [computeAge, mdLt]
  simp only [Bool.or_eq_true, Bool.and_eq_true, beq_iff_eq, decide_eq_true_eq] at h
  split <;> rename_i hc <;>
    simp only [Bool.or_eq_true, Bool.and_eq_true, beq_iff_eq, decide_eq_true_eq] at hc <;>
    omega

/-- C4: for every date string that parses as an ISO YYYY-MM-DD date, the
date-reasonability check returns is_reasonable = true iff the whole-year age
(calendar-correct subtraction) relative to the current date lies in
[18, 100] inclusive and the date is not later than the current date. -/
theorem claim_C4 (today : Date) (s : String) (d : Date)
    (h : parseDate s = some d) :
    ((validate_date_reasonability today s).is_reasonable = true ↔
      (18 ≤ computeAge today d ∧ computeAge today d ≤ 100
        ∧ Date.ltb today d = false)) := by
  simp only [validate_date_reasonability, h]
  simp only [Bool.and_eq_true, decide_eq_true_eq]
  constructor
  · rintro ⟨h1, h2⟩
    refine ⟨h1, h2, ?_⟩
    cases hb : Date.ltb today d
    · rfl
    · exact absurd (computeAge_lt_of_future hb) (by omega)
  · rintro ⟨h1, h2, _⟩
    exact ⟨h1, h2⟩

/-- C4 witness: on 2026-10-12, a person born 2008-10-12 is exactly 18 and
the check accepts the date. -/
theorem claim_C4_witness :
    parseDate "2008-10-12" = some ⟨2008, 10, 12⟩
    ∧ ((validate_date_reasonability ⟨2026, 10, 12⟩ "2008-10-12").is_reasonable = true ↔
        (18 ≤ computeAge ⟨2026, 10, 12⟩ ⟨2008, 10, 12⟩
          ∧ computeAge ⟨2026, 10, 12⟩ ⟨2008, 10, 12⟩ ≤ 100
          ∧ Date.ltb ⟨2026, 10, 12⟩ ⟨2008, 10, 12⟩ = false)) :=
  ⟨by decide, claim_C4 ⟨2026, 10, 12⟩ "2008-10-12" ⟨2008, 10, 12⟩ (by decide)⟩

/-- C2 counterexample: for the well-formed date 1990-05-04 (age 36 as of
2026-10-12) no issue condition applies, yet the issues sequence returned by
the date-reasonability check consists of three Python None placeholders, so
it does not hold that the sequence never contains null/absent entries. -/
theorem claim_C2_counterexample :
    (validate_date_reasonability ⟨2026, 10, 12⟩ "1990-05-04").issues
      = [none, none, none] := by decide

/-- C2 amended: a human-readable issue entry occurs in the issues sequence
iff its condition holds, but for every date that parses the sequence also
contains a None placeholder at each position whose condition fails (the
source builds the three-slot list with Python conditional expressions whose
alternative is None); on parse failure the single invalid-format issue is
reported with no placeholder. -/
theorem claim_C2 (today : Date) (s : String) (d : Date)
    (h : parseDate s = some d) :
    (some "Age below 18" ∈ (validate_date_reasonability today s).issues ↔
        computeAge today d < 18)
    ∧ (some "Age appears unreasonable (over 100 years)" ∈
        (validate_date_reasonability today s).issues ↔ computeAge today d > 100)
    ∧ (some "Date is in the future" ∈ (validate_date_reasonability today s).issues ↔
        Date.ltb today d = true)
    ∧ none ∈ (validate_date_reasonability today s).issues := by
  simp only [validate_date_reasonability, h]
  split_ifs with h1 h2 h3 <;>
    refine ⟨?_, ?_, ?_, ?_⟩ <;>
    simp [List.mem_cons] <;>
    first
      | omega
      | simp_all

/-- C2 witness: a 17-year-old date of birth as of 2026-10-12 triggers the
below-18 issue and only that issue, with placeholders in the other slots. -/
theorem claim_C2_witness :
    parseDate "2008-10-13" = some ⟨2008, 10, 13⟩
    ∧ ((some "Age below 18" ∈
          (validate_date_reasonability ⟨2026, 10, 12⟩ "2008-10-13").issues ↔
        computeAge ⟨2026, 10, 12⟩ ⟨2008, 10, 13⟩ < 18)
      ∧ (some "Age appears unreasonable (over 100 years)" ∈
          (validate_date_reasonability ⟨2026, 10, 12⟩ "2008-10-13").issues ↔
        computeAge ⟨2026, 10, 12⟩ ⟨2008, 10, 13⟩ > 100)
      ∧ (some "Date is in the future" ∈
          (validate_date_reasonability ⟨2026, 10, 12⟩ "2008-10-13").issues ↔
        Date.ltb ⟨2026, 10, 12⟩ ⟨2008, 10, 13⟩ = true)
      ∧ none ∈ (validate_date_reasonability ⟨2026, 10, 12⟩ "2008-10-13").issues) :=
  ⟨by decide, claim_C2 ⟨2026, 10, 12⟩ "2008-10-13" ⟨2008, 10, 13⟩ (by decide)⟩

/-- C7: for every image payload strictly larger than 20 MiB, the pipeline
returns the size-related Failure immediately and performs no capability
call. -/
theorem claim_C7 (today : Date) (image_size : Nat) (caps : CapabilityResponses)
    (elapsed : Nat) (h : image_size > 20 * 1024 * 1024) :
    process_kyc_document today image_size caps elapsed =
      (.failure "Image file is too large. Please use an image smaller than 20MB" elapsed,
       []) := by
  rw [process_kyc_document, if_pos h]

/-- C7 witness: a 21 MiB payload is rejected with the size message and an
empty capability-call trace. -/
theorem claim_C7_witness :
    21 * 1024 * 1024 > 20 * 1024 * 1024
    ∧ process_kyc_document ⟨2026, 10, 12⟩ (21 * 1024 * 1024)
        { quality := some ⟨"yes", "yes", "yes"⟩, classification := "license",
          extraction := none } 3 =
      (.failure "Image file is too large. Please use an image smaller than 20MB" 3,
       []) :=
  ⟨by decide,
   claim_C7 ⟨2026, 10, 12⟩ (21 * 1024 * 1024)
     { quality := some ⟨"yes", "yes", "yes"⟩, classification := "license",
       extraction := none } 3 (by decide)⟩

/-- Boolean key-membership agrees with propositional membership for string
lists. -/
theorem contains_eq_true_iff_mem {a : String} {l : List String} :
    l.contains a = true ↔ a ∈ l :=
  List.elem_iff

/-- C3: whenever the run reaches the quality stage and at least one of the
three flags of the evaluated assessment differs from "yes", the pipeline
fails at the quality stage carrying exactly that assessment as context; and
the gate accepts precisely the assessments whose three flags all equal
"yes". -/
theorem claim_C3 (today : Date) (image_size : Nat) (caps : CapabilityResponses)
    (elapsed : Nat) (q : ImageQualityCheck)
    (hq : validate_image_quality caps.quality = q)
    (hsize : image_size ≤ 20 * 1024 * 1024) :
    (¬ (q.centered = "yes" ∧ q.clear = "yes" ∧ q.fully_visible = "yes") →
      process_kyc_document today image_size caps elapsed =
        (.quality_failure "Image quality check failed" q elapsed, [.assessQuality]))
    ∧ (qualityAllYes q = true ↔
        (q.centered = "yes" ∧ q.clear = "yes" ∧ q.fully_visible = "yes")) := by
  have hiff : qualityAllYes q = true ↔
      (q.centered = "yes" ∧ q.clear = "yes" ∧ q.fully_visible = "yes") := by
    simp [qualityAllYes]
  refine ⟨?_, hiff⟩
  intro hno
  have hfalse : qualityAllYes q = false := by
    cases hb : qualityAllYes q
    · rfl
    · exact absurd (hiff.mp hb) hno
  simp only [process_kyc_document]
  rw [if_neg (by omega : ¬ image_size > 20 * 1024 * 1024)]
  simp only [hq, hfalse]
  simp

/-- C3 witness: a run whose quality reply has clear = "no" fails at the
quality stage with that assessment as context. -/
theorem claim_C3_witness :
    validate_image_quality (some ⟨"yes", "no", "yes"⟩) = ⟨"yes", "no", "yes"⟩
    ∧ (100 : Nat) ≤ 20 * 1024 * 1024
    ∧ ((¬ (("yes" : String) = "yes" ∧ ("no" : String) = "yes"
          ∧ ("yes" : String) = "yes") →
        process_kyc_document ⟨2026, 10, 12⟩ 100
            { quality := some ⟨"yes", "no", "yes"⟩, classification := "license",
              extraction := none } 3 =
          (.quality_failure "Image quality check failed" ⟨"yes", "no", "yes"⟩ 3,
           [.assessQuality]))
      ∧ (qualityAllYes ⟨"yes", "no", "yes"⟩ = true ↔
          (("yes" : String) = "yes" ∧ ("no" : String) = "yes"
            ∧ ("yes" : String) = "yes"))) :=
  ⟨by decide, by decide,
   claim_C3 ⟨2026, 10, 12⟩ 100
     { quality := some ⟨"yes", "no", "yes"⟩, classification := "license",
       extraction := none } 3 ⟨"yes", "no", "yes"⟩ (by decide) (by decide)⟩

/-- C6: each of the five supported document-type identifiers has a registry
entry with a non-empty required-field list, while any token outside the
registry's key set is looked up as none and makes the field validator return
the unknown-document-type error (with is_valid false by construction). -/
theorem claim_C6 :
    (∀ dt ∈ supported_document_types,
      ∃ cfg, List.lookup dt document_configs = some cfg ∧ cfg.required_fields ≠ [])
    ∧ (∀ tok, tok ∉ document_configs.map Prod.fst →
        List.lookup tok document_configs = none
        ∧ ∀ ed, validate_extracted_data tok ed =
            .unknown_type ("Unknown document type: " ++ tok)
          ∧ (validate_extracted_data tok ed).is_valid = false) := by
  constructor
  · intro dt hdt
    simp only [supported_document_types, List.mem_cons, List.not_mem_nil,
      or_false] at hdt
    rcases hdt with rfl | rfl | rfl | rfl | rfl <;> exact ⟨_, rfl, by decide⟩
  · intro tok htok
    have hnone := lookup_eq_none_of_not_mem_keys htok
    refine ⟨hnone, fun ed => ?_⟩
    have hreq : get_required_fields tok = [] := by
      rw [get_required_fields, hnone]
    have hval : validate_extracted_data tok ed =
        .unknown_type ("Unknown document type: " ++ tok) := by
      simp only [validate_extracted_data, hreq, List.isEmpty_nil, if_pos]
    refine ⟨hval, ?_⟩
    rw [hval]
    rfl

/-- C6 witness: instantiation at the supported token "passport" and the
unsupported token "invoice". -/
theorem claim_C6_witness :
    ("passport" ∈ supported_document_types
      ∧ ∃ cfg, List.lookup "passport" document_configs = some cfg
          ∧ cfg.required_fields ≠ [])
    ∧ ("invoice" ∉ document_configs.map Prod.fst
      ∧ List.lookup "invoice" document_configs = none
      ∧ ∀ ed, validate_extracted_data "invoice" ed =
          .unknown_type ("Unknown document type: " ++ "invoice")
        ∧ (validate_extracted_data "invoice" ed).is_valid = false) :=
  ⟨⟨by decide, claim_C6.1 "passport" (by decide)⟩,
   by decide,
   (claim_C6.2 "invoice" (by decide)).1,
   (claim_C6.2 "invoice" (by decide)).2⟩

/-- C5: for a supported document type, a parsed payload whose keys cover the
required fields validates with empty missing_fields and is_valid true, and
removing any single required field from the payload makes validation fail
with that field reported in missing_fields, the reported list being a
sublist of (hence ordered like) the registry's required-field list. -/
theorem claim_C5 (doc_type : String) (cfg : DocumentConfig)
    (hcfg : List.lookup doc_type document_configs = some cfg)
    (data : List (String × String))
    (hsup : ∀ f ∈ cfg.required_fields, f ∈ data.map Prod.fst) :
    validate_extracted_data doc_type (some data) =
      .checked true [] cfg.required_fields (data.map Prod.fst)
    ∧ ∀ f ∈ cfg.required_fields,
        ∃ ms,
          validate_extracted_data doc_type
              (some (data.filter (fun kv => !(kv.1 == f)))) =
            .checked false ms cfg.required_fields
              ((data.filter (fun kv => !(kv.1 == f))).map Prod.fst)
          ∧ f ∈ ms ∧ ms.Sublist cfg.required_fields := by
  have hreq := get_required_fields_of_lookup hcfg
  have hne := (config_of_lookup hcfg).1
  have hie : cfg.required_fields.isEmpty = false := by
    cases hcl : cfg.required_fields
    · exact absurd hcl hne
    · rfl
  constructor
  · have hfilter : cfg.required_fields.filter
        (fun f => !((data.map Prod.fst).contains f)) = [] := by
      rw [List.filter_eq_nil_iff]
      intro f hf
      have hct : (data.map Prod.fst).contains f = true :=
        contains_eq_true_iff_mem.mpr (hsup f hf)
      rw [hct]
      simp
    simp only [validate_extracted_data, hreq, hie, Bool.false_eq_true,
      if_false, hfilter, List.length_nil]
    rfl
  · intro f hf
    refine ⟨cfg.required_fields.filter
      (fun g => !(((data.filter (fun kv => !(kv.1 == f))).map Prod.fst).contains g)),
      ?_, ?_, List.filter_sublist _⟩
    · have hmem : f ∈ cfg.required_fields.filter
          (fun g => !(((data.filter (fun kv => !(kv.1 == f))).map Prod.fst).contains g)) := by
        rw [List.mem_filter]
        refine ⟨hf, ?_⟩
        simp only [Bool.not_eq_true']
        cases hcc : ((data.filter (fun kv => !(kv.1 == f))).map Prod.fst).contains f
        · rfl
        · exfalso
          have := contains_eq_true_iff_mem.mp hcc
          simp only [List.mem_map, List.mem_filter, Bool.not_eq_true'] at this
          obtain ⟨kv, ⟨-, hkv⟩, hfst⟩ := this
          rw [hfst] at hkv
          simp at hkv
      have hlen : (cfg.required_fields.filter
          (fun g => !(((data.filter (fun kv => !(kv.1 == f))).map Prod.fst).contains g))).length ≠ 0 := by
        simp only [ne_eq, List.length_eq_zero]
        exact List.ne_nil_of_mem hmem
      simp only [validate_extracted_data, hreq, hie, Bool.false_eq_true, if_false]
      have : ((cfg.required_fields.filter
          (fun g => !(((data.filter (fun kv => !(kv.1 == f))).map Prod.fst).contains g))).length == 0) = false := by
        exact beq_eq_false_iff_ne.mpr hlen
      rw [this]
    · rw [List.mem_filter]
      refine ⟨hf, ?_⟩
      simp only [Bool.not_eq_true']
      cases hcc : ((data.filter (fun kv => !(kv.1 == f))).map Prod.fst).contains f
      · rfl
      · exfalso
        have := contains_eq_true_iff_mem.mp hcc
        simp only [List.mem_map, List.mem_filter, Bool.not_eq_true'] at this
        obtain ⟨kv, ⟨-, hkv⟩, hfst⟩ := this
        rw [hfst] at hkv
        simp at hkv

/-- C5 witness: the passport schema together with a payload holding exactly
the required fields validates as is_valid with nothing missing. -/
theorem claim_C5_witness :
    validate_extracted_data "passport"
        (some [("full_name", "J"), ("date_of_birth", "1990-05-04"),
               ("passport_number", "P1"), ("nationality", "X"),
               ("expiry_date", "2030-01-01")]) =
      .checked true []
        ["full_name", "date_of_birth", "passport_number", "nationality", "expiry_date"]
        ["full_name", "date_of_birth", "passport_number", "nationality", "expiry_date"] :=
  (claim_C5 "passport"
    { required_fields := ["full_name", "date_of_birth", "passport_number", "nationality", "expiry_date"]
      prompt := "Extract in JSON format:\n- full_name\n- date_of_birth\n- passport_number\n- nationality\n- expiry_date" }
    (by decide)
    [("full_name", "J"), ("date_of_birth", "1990-05-04"),
     ("passport_number", "P1"), ("nationality", "X"),
     ("expiry_date", "2030-01-01")]
    (by decide)).1

/-- A successful extraction step always carries the FieldValidator outcome
for the same document type and extraction text in its validation_result
field. -/
theorem validation_result_of_extract_ok {dtp : String} {ext : ParsedExtraction}
    {ei : ExtractedInfo} (h : extract_document_info dtp ext = .ok ei) :
    ei.validation_result = validate_extracted_data dtp ext := by
  simp only [extract_document_info] at h
  split at h
  · exact absurd h (by simp)
  · split at h
    · exact absurd h (by simp)
    · injection h with h2
      rw [← h2]

/-- C1 amended: in every run that returns Success, the top-level
validation_result is the hardcoded mock outcome (is_valid true, no missing
fields, compliance passed) regardless of the extraction content, while the
FieldValidator outcome for the extracted output and the classified type is
the one carried inside extracted_info.validation_result. -/
theorem claim_C1 (today : Date) (image_size : Nat) (caps : CapabilityResponses)
    (elapsed : Nat) (dt : String) (ei : ExtractedInfo) (vr : MockValidation)
    (qc : ImageQualityCheck) (cs t : Nat) (trace : List Capability)
    (h : process_kyc_document today image_size caps elapsed =
      (.success dt ei vr qc cs t, trace)) :
    vr = { is_valid := true, missing_fields := [], compliance_check := "passed" }
    ∧ ei.validation_result = validate_extracted_data dt caps.extraction
    ∧ dt = detect_document_type caps.classification := by
  simp only [process_kyc_document] at h
  split at h
  · simp at h
  · split at h
    · simp at h
    · split at h
      · simp at h
      · rename_i ei0 hext
        split at h
        · rename_i ed hed
          split at h
          · simp at h
          · simp only [Prod.mk.injEq, PipelineResult.success.injEq] at h
            obtain ⟨⟨hdt, hei, hvr, hqc, hcs, ht⟩, htr⟩ := h
            refine ⟨hvr.symm, ?_, hdt.symm⟩
            rw [← hei, ← hdt]
            exact validation_result_of_extract_ok hext
        · simp only [Prod.mk.injEq, PipelineResult.success.injEq] at h
          obtain ⟨⟨hdt, hei, hvr, hqc, hcs, ht⟩, htr⟩ := h
          refine ⟨hvr.symm, ?_, hdt.symm⟩
          rw [← hei, ← hdt]
          exact validation_result_of_extract_ok hext

/-- C1 counterexample: a run whose extraction JSON misses the required
field license_number still returns Success carrying the mock
validation_result with is_valid true, while FieldValidator's validate on the
same extracted output and type reports is_valid false with license_number
missing; the Success's validation_result therefore differs from
FieldValidator's outcome. -/
theorem claim_C1_counterexample :
    process_kyc_document ⟨2026, 10, 12⟩ 100
        { quality := some ⟨"yes", "yes", "yes"⟩, classification := "license",
          extraction := some [("full_name", "A"), ("date_of_birth", "1990-05-04"),
            ("state", "CA"), ("expiry_date", "2030-01-01")] } 7 =
      (.success "license"
        ⟨some [("full_name", "A"), ("date_of_birth", "1990-05-04"),
            ("state", "CA"), ("expiry_date", "2030-01-01")],
         92,
         .checked false ["license_number"]
           ["full_name", "date_of_birth", "license_number", "state", "expiry_date"]
           ["full_name", "date_of_birth", "state", "expiry_date"]⟩
        { is_valid := true, missing_fields := [], compliance_check := "passed" }
        ⟨"yes", "yes", "yes"⟩ 92 7,
       [.assessQuality, .classify, .extract])
    ∧ (validate_extracted_data "license"
        (some [("full_name", "A"), ("date_of_birth", "1990-05-04"),
          ("state", "CA"), ("expiry_date", "2030-01-01")])).is_valid = false := by
  exact ⟨by decide, by decide⟩

/-- C1 witness: instantiation of the amended claim at a concrete successful
run whose extraction misses license_number. -/
theorem claim_C1_witness :
    ({ is_valid := true, missing_fields := [], compliance_check := "passed" }
        : MockValidation) =
      { is_valid := true, missing_fields := [], compliance_check := "passed" }
    ∧ (⟨some [("full_name", "A"), ("date_of_birth", "1990-05-04"),
          ("state", "CA"), ("expiry_date", "2030-01-01")],
        92,
        .checked false ["license_number"]
          ["full_name", "date_of_birth", "license_number", "state", "expiry_date"]
          ["full_name", "date_of_birth", "state", "expiry_date"]⟩
        : ExtractedInfo).validation_result =
      validate_extracted_data "license"
        (some [("full_name", "A"), ("date_of_birth", "1990-05-04"),
          ("state", "CA"), ("expiry_date", "2030-01-01")])
    ∧ "license" = detect_document_type "license" :=
  claim_C1 ⟨2026, 10, 12⟩ 100
    { quality := some ⟨"yes", "yes", "yes"⟩, classification := "license",
      extraction := some [("full_name", "A"), ("date_of_birth", "1990-05-04"),
        ("state", "CA"), ("expiry_date", "2030-01-01")] } 7
    "license"
    ⟨some [("full_name", "A"), ("date_of_birth", "1990-05-04"),
        ("state", "CA"), ("expiry_date", "2030-01-01")],
     92,
     .checked false ["license_number"]
       ["full_name", "date_of_birth", "license_number", "state", "expiry_date"]
       ["full_name", "date_of_birth", "state", "expiry_date"]⟩
    { is_valid := true, missing_fields := [], compliance_check := "passed" }
    ⟨"yes", "yes", "yes"⟩ 92 7
    [.assessQuality, .classify, .extract]
    (by decide)

/-- C8: when the extraction text fails JSON parsing, the date-check stage is
skipped silently: the run does not fail there, reports no date issues, and
returns Success carrying the step-5 validation outcome computed from the
same extracted_info (whose own validation_result records the parse failure
for stage-6 style reporting). -/
theorem claim_C8 (today : Date) (image_size : Nat) (caps : CapabilityResponses)
    (elapsed : Nat) (ei : ExtractedInfo)
    (hsize : image_size ≤ 20 * 1024 * 1024)
    (hq : qualityAllYes (validate_image_quality caps.quality) = true)
    (hext : extract_document_info (detect_document_type caps.classification)
      caps.extraction = .ok ei)
    (hjson : caps.extraction = none) :
    process_kyc_document today image_size caps elapsed =
      (.success (detect_document_type caps.classification) ei
        (validate_extracted_info ei (detect_document_type caps.classification))
        (validate_image_quality caps.quality) ei.confidence_score elapsed,
       [.assessQuality, .classify, .extract]) := by
  simp only [process_kyc_document]
  rw [if_neg (by omega : ¬ image_size > 20 * 1024 * 1024)]
  rw [hq]
  simp only [Bool.not_true, Bool.false_eq_true, if_false]
  rw [hext]
  rw [hjson]

/-- C8 witness: a run whose extraction text is not valid JSON ends in
Success with the invalid-JSON outcome recorded inside extracted_info. -/
theorem claim_C8_witness :
    (100 : Nat) ≤ 20 * 1024 * 1024
    ∧ qualityAllYes (validate_image_quality (some ⟨"yes", "yes", "yes"⟩)) = true
    ∧ process_kyc_document ⟨2026, 10, 12⟩ 100
        { quality := some ⟨"yes", "yes", "yes"⟩, classification := "license",
          extraction := none } 5 =
      (.success (detect_document_type "license")
        ⟨none, 92, .invalid_json "Invalid JSON format in extracted data"⟩
        (validate_extracted_info
          ⟨none, 92, .invalid_json "Invalid JSON format in extracted data"⟩
          (detect_document_type "license"))
        (validate_image_quality (some ⟨"yes", "yes", "yes"⟩)) 92 5,
       [.assessQuality, .classify, .extract]) :=
  ⟨by decide, by decide,
   claim_C8 ⟨2026, 10, 12⟩ 100
     { quality := some ⟨"yes", "yes", "yes"⟩, classification := "license",
       extraction := none } 5
     ⟨none, 92, .invalid_json "Invalid JSON format in extracted data"⟩
     (by decide) (by decide) (by rfl) (by rfl)⟩

/-- C9 amended: when the extraction output parses as JSON but has no
date_of_birth key, the date of birth defaults to the empty string, date
parsing fails, and the run ends in the date-validation Failure with the
invalid-format issue; types whose schema has no date_of_birth field
therefore fail whenever their extraction JSON carries only schema fields,
though they can still reach Success when the JSON happens to include a
reasonable date_of_birth value. -/
theorem claim_C9 (today : Date) (image_size : Nat) (caps : CapabilityResponses)
    (elapsed : Nat) (ei : ExtractedInfo) (data : List (String × String))
    (hsize : image_size ≤ 20 * 1024 * 1024)
    (hq : qualityAllYes (validate_image_quality caps.quality) = true)
    (hext : extract_document_info (detect_document_type caps.classification)
      caps.extraction = .ok ei)
    (hdata : caps.extraction = some data)
    (hnodob : "date_of_birth" ∉ data.map Prod.fst) :
    process_kyc_document today image_size caps elapsed =
      (.date_failure "Date validation failed" [some "Invalid date format"] elapsed,
       [.assessQuality, .classify, .extract]) := by
  have hlook : List.lookup "date_of_birth" data = none :=
    lookup_eq_none_of_not_mem_keys hnodob
  have hdv : validate_date_reasonability today
      ((List.lookup "date_of_birth" data).getD "") =
      { is_reasonable := false, issues := [some "Invalid date format"] } := by
    rw [hlook]
    rfl
  simp only [process_kyc_document]
  rw [if_neg (by omega : ¬ image_size > 20 * 1024 * 1024)]
  rw [hq]
  simp only [Bool.not_true, Bool.false_eq_true, if_false]
  rw [hext]
  rw [hdata]
  simp only [hdv]
  simp

/-- C9 counterexample to the universal consequence: a utility_bill run whose
extraction JSON does include a reasonable date_of_birth value (alongside the
schema fields) reaches Success even though the utility_bill schema has no
date_of_birth field, so parseable JSON alone does not doom such types. -/
theorem claim_C9_counterexample :
    process_kyc_document ⟨2026, 10, 12⟩ 100
        { quality := some ⟨"yes", "yes", "yes"⟩, classification := "utility_bill",
          extraction := some [("service_provider", "P"), ("customer_name", "C"),
            ("address", "A"), ("bill_date", "2026-01-01"), ("amount", "10"),
            ("date_of_birth", "1990-05-04")] } 7 =
      (.success "utility_bill"
        ⟨some [("service_provider", "P"), ("customer_name", "C"),
            ("address", "A"), ("bill_date", "2026-01-01"), ("amount", "10"),
            ("date_of_birth", "1990-05-04")],
         92,
         .checked true []
           ["service_provider", "customer_name", "address", "bill_date", "amount"]
           ["service_provider", "customer_name", "address", "bill_date", "amount",
            "date_of_birth"]⟩
        { is_valid := true, missing_fields := [], compliance_check := "passed" }
        ⟨"yes", "yes", "yes"⟩ 92 7,
       [.assessQuality, .classify, .extract]) := by
  decide

/-- C9 witness: a utility_bill extraction carrying exactly the schema fields
(no date_of_birth key) fails at the date stage with the invalid-format
issue. -/
theorem claim_C9_witness :
    "date_of_birth" ∉
      ([("service_provider", "P"), ("customer_name", "C"), ("address", "A"),
        ("bill_date", "2026-01-01"), ("amount", "10")].map
          (Prod.fst (α := String) (β := String)))
    ∧ process_kyc_document ⟨2026, 10, 12⟩ 100
        { quality := some ⟨"yes", "yes", "yes"⟩, classification := "utility_bill",
          extraction := some [("service_provider", "P"), ("customer_name", "C"),
            ("address", "A"), ("bill_date", "2026-01-01"), ("amount", "10")] } 7 =
      (.date_failure "Date validation failed" [some "Invalid date format"] 7,
       [.assessQuality, .classify, .extract]) :=
  ⟨by decide,
   claim_C9 ⟨2026, 10, 12⟩ 100
     { quality := some ⟨"yes", "yes", "yes"⟩, classification := "utility_bill",
       extraction := some [("service_provider", "P"), ("customer_name", "C"),
         ("address", "A"), ("bill_date", "2026-01-01"), ("amount", "10")] } 7
     ⟨some [("service_provider", "P"), ("customer_name", "C"), ("address", "A"),
         ("bill_date", "2026-01-01"), ("amount", "10")],
      92,
      .checked true []
        ["service_provider", "customer_name", "address", "bill_date", "amount"]
        ["service_provider", "customer_name", "address", "bill_date", "amount"]⟩
     [("service_provider", "P"), ("customer_name", "C"), ("address", "A"),
      ("bill_date", "2026-01-01"), ("amount", "10")]
     (by decide) (by decide) (by rfl) (by rfl) (by decide)⟩

/-- C10: two runs over the same image size and identical deterministic
capability responses (and the same current date) produce the same result
content — equal up to the processing_time_seconds field — and the same
capability-call trace, whatever the two wall-clock readings were. -/
theorem claim_C10 (today : Date) (image_size : Nat) (caps : CapabilityResponses)
    (e1 e2 : Nat) :
    (process_kyc_document today image_size caps e1).1.eraseTime =
      (process_kyc_document today image_size caps e2).1.eraseTime
    ∧ (process_kyc_document today image_size caps e1).2 =
      (process_kyc_document today image_size caps e2).2 := by
  by_cases h1 : image_size > 20 * 1024 * 1024
  · simp only [process_kyc_document, if_pos h1]
    refine ⟨?_, ?_⟩ <;> trivial
  · simp only [process_kyc_document, if_neg h1]
    by_cases h2 :
        (!qualityAllYes (validate_image_quality caps.quality)) = true
    · simp only [if_pos h2]
      refine ⟨?_, ?_⟩ <;> trivial
    · simp only [if_neg h2]
      cases hE : extract_document_info (detect_document_type caps.classification)
          caps.extraction with
      | error msg =>
        simp only [hE]
        refine ⟨?_, ?_⟩ <;> trivial
      | ok ei =>
        simp only [hE]
        cases hX : caps.extraction with
        | none =>
          simp only [hX]
          refine ⟨?_, ?_⟩ <;> trivial
        | some ed =>
          simp only [hX]
          by_cases h3 :
              (!(validate_date_reasonability today
                ((List.lookup "date_of_birth" ed).getD "")).is_reasonable) = true
          · simp only [if_pos h3]
            refine ⟨?_, ?_⟩ <;> trivial
          · simp only [if_neg h3]
            refine ⟨?_, ?_⟩ <;> trivial

end FdePoc
